import Mathlib

/-!
Shallow embedding of `src/web-simulator/src/mqtt.rs` from the
eclipsecon-2022-hackathon repository, together with theorems settling the
frozen claims about its session-management layer.

The JS/wasm transport boundary (the paho `Client`, `JsValue`, serde and the
yew `Callback` machinery) is modelled abstractly: fallible JS-interop steps
become explicit environment booleans or `Option`-valued observations, and the
observable behaviour of the layer is captured as lists of boundary events.
-/

/-- Observable events at the boundary of the session layer: connection-state
notifications emitted through `opts.on_connection_state`, and calls issued to
the underlying paho transport. -/
inductive Event
  | stateNotify (text : String)
  | transportConnect
  | transportSubscribe (filter : String) (qos : Int)
  | transportPublish (topic : String) (payload : String) (qos : Int) (retained : Bool)
  | transportDisconnect
  deriving DecidableEq, Repr

/-- The text of a state notification, if the event is one. -/
def Event.stateText : Event → Option String
  | .stateNotify t => some t
  | _ => none

/-- Whether the event is a subscribe call on the transport. -/
def Event.isSubscribeCall : Event → Bool
  | .transportSubscribe _ _ => true
  | _ => false

/-- Whether the event is a disconnect call on the transport. -/
def Event.isDisconnectCall : Event → Bool
  | .transportDisconnect => true
  | _ => false

/-- The sequence of connection-state notification texts within a trace. -/
def stateTexts (es : List Event) : List String :=
  es.filterMap Event.stateText

/-- mqtt.rs 58-63: the `QoS` enum. -/
inductive QoS
  | QoS0
  | QoS1
  | QoS2
  deriving DecidableEq, Repr

/-- mqtt.rs 65-73: `impl From<QoS> for i32`. -/
def QoS.toI32 : QoS → Int
  | .QoS0 => 0
  | .QoS1 => 1
  | .QoS2 => 2

/-- mqtt.rs 75-79: `MqttMessage` — a delivered topic plus payload bytes. -/
structure MqttMessage where
  topic : String
  payload : List Nat
  deriving DecidableEq, Repr

/-- Rust `str::strip_prefix` on character lists: `some rest` exactly when the
first list is an initial segment, with `rest` the remainder. -/
def stripPfx : List Char → List Char → Option (List Char)
  | [], s => some s
  | _ :: _, [] => none
  | p :: ps, c :: cs => if p = c then stripPfx ps cs else none

/-- The literal topic stem matched at mqtt.rs 451 (note the double slash:
an empty addressing segment). -/
def commandInbox : String := "command/inbox//"

/-- mqtt.rs 405-424: `Callback::filter_reform` — the derived callback emits
exactly when the transform yields a value, and emits that value once. -/
def filter_reform {T IN : Type} (f : T → Option IN) (input : T) : List IN :=
  match f input with
  | some out => [out]
  | none => []

/-- Instrumented result of the inbound-message transform: what (if anything)
is forwarded, and which decode tiers were actually invoked. -/
structure Decoded (Cmd : Type) where
  forwarded : Option Cmd
  strictTried : Bool
  looseTried : Bool
  deriving DecidableEq, Repr

/-- mqtt.rs 449-470: the message-to-command transform installed by
`MqttPublisher::new`. Parametric over the strict decode
(`serde_json::from_slice` at the command type), the generic JSON parse
(`serde_json::from_slice::<Value>`), and `json2command` from the `borrowed`
module (external to this file); only the second component of the pair
produced by `json2command` is forwarded (`.map(|msg| msg.1)`). -/
def msgToCommand {Cmd J M : Type} (strict : List Nat → Option Cmd)
    (parseJson : List Nat → Option J) (json2command : J → Option (M × Cmd))
    (msg : MqttMessage) : Decoded Cmd :=
  match stripPfx commandInbox.data msg.topic.data with
  | some _ =>
    match strict msg.payload with
    | some command => ⟨some command, true, false⟩
    | none =>
      match parseJson msg.payload with
      | some json => ⟨(json2command json).map Prod.snd, true, true⟩
      | none => ⟨none, true, false⟩
  | none => ⟨none, false, false⟩

/-- The commands actually delivered to the `on_command` observer for one
arriving message: the transform above routed through `filter_reform`
(mqtt.rs 449). -/
def commandEmissions {Cmd J M : Type} (strict : List Nat → Option Cmd)
    (parseJson : List Nat → Option J) (json2command : J → Option (M × Cmd))
    (msg : MqttMessage) : List Cmd :=
  filter_reform (fun m => (msgToCommand strict parseJson json2command m).forwarded) msg

/-- Abstraction of a native `JsValue` error as the two observations the code
makes of it: `as_string()` and `into_serde::<Value>` (the latter recorded as
the rendered text of the parsed JSON, i.e. `json.to_string()`). -/
structure JsVal where
  asString : Option String
  asJsonText : Option String
  deriving DecidableEq, Repr

/-- mqtt.rs 379-389: `convert_error` — try the plain string, then the rendered
JSON text, then the literal fallback. -/
def convert_error (v : JsVal) : String :=
  (v.asString.orElse fun _ => v.asJsonText).getD "<unknown>"

/-- mqtt.rs 391-403: `str_err` — the message carried by the `anyhow` error
built from a native error value. -/
def str_err (v : JsVal) : String :=
  match v.asString with
  | some s => s
  | none =>
    match v.asJsonText with
    | some r => "Unknown error: " ++ r
    | none => "Unknown error"

/-- `Result::map_err`: rename the error of an `Except` value. -/
def mapErr {e1 e2 a : Type} (f : e1 → e2) : Except e1 a → Except e2 a
  | .ok v => .ok v
  | .error err => .error (f err)

/-- Abstraction of a value handed to the `onMessageArrived` handler:
`dyn_ref::<Message>` succeeds exactly on the `message` alternative. -/
inductive JsArrived
  | message (topic : String) (payload : List Nat)
  | other
  deriving DecidableEq, Repr

/-- mqtt.rs 368-377: `convert_message`. -/
def convert_message : JsArrived → Except String MqttMessage
  | .message t p => .ok ⟨t, p⟩
  | .other => .error "Failed to convert message"

/-- mqtt.rs 337-347: the body of the installed message-arrived closure —
the application callback invocations and the warnings logged, for one
delivered value. -/
def onMessageArrived (v : JsArrived) : List MqttMessage × List String :=
  match convert_message v with
  | .ok m => ([m], [])
  | .error err => ([], ["Failed to parse incoming message: " ++ err])

/-- Which setup step of connect/subscribe failed. -/
inductive SetupStage
  | options
  | onFailureHandler
  | onSuccessHandler
  deriving DecidableEq, Repr

/-- Synchronous result of `Inner::connect` / `Inner::subscribe`: a panic
(`unwrap` on a failed step), an error return (`?` with context), or `Ok`. -/
inductive CallOutcome
  | panicked
  | setupError (stage : SetupStage)
  | ok
  deriving DecidableEq, Repr

/-- Whether the outcome is an error return (a SetupError), as opposed to a
panic or success. -/
def CallOutcome.isSetupError : CallOutcome → Bool
  | .setupError _ => true
  | _ => false

/-- Whether the outcome is a panic. -/
def CallOutcome.isPanicked : CallOutcome → Bool
  | .panicked => true
  | _ => false

/-- Environment choices for the fallible JS-interop steps of one
connect/subscribe call: whether building the native options value fails, and
whether attaching each completion handler via `Reflect::set` fails. -/
structure SetupEnv where
  optionsBuildFails : Bool
  setOnFailureFails : Bool
  setOnSuccessFails : Bool
  deriving DecidableEq, Repr

/-- mqtt.rs 211-270: `Inner::connect` — events issued to the transport and the
synchronous outcome. Building the options uses `.unwrap()` (line 236), so an
options failure panics; each failed `Reflect::set` returns early via `?`
(lines 243-256) before the transport call at line 265. -/
def Inner.connect (env : SetupEnv) : List Event × CallOutcome :=
  if env.optionsBuildFails then ([], .panicked)
  else if env.setOnFailureFails then ([], .setupError .onFailureHandler)
  else if env.setOnSuccessFails then ([], .setupError .onSuccessHandler)
  else ([Event.transportConnect], .ok)

/-- mqtt.rs 276-325: `Inner::subscribe` — symmetric to connect, except that a
failed options conversion returns an error via `context(..)?` (line 291)
rather than panicking; the transport call is at line 320. -/
def Inner.subscribe (env : SetupEnv) (filter : String) (q : QoS) :
    List Event × CallOutcome :=
  if env.optionsBuildFails then ([], .setupError .options)
  else if env.setOnFailureFails then ([], .setupError .onFailureHandler)
  else if env.setOnSuccessFails then ([], .setupError .onSuccessHandler)
  else ([Event.transportSubscribe filter (QoS.toI32 q)], .ok)

/-- mqtt.rs 196-208: the handler-retention fields of `Inner`. Stored closures
are modelled by identifiers; `none` means no handler is retained. -/
structure InnerHandlers where
  _on_connect_success : Option Nat
  _on_connect_failure : Option Nat
  _on_subscribe_success : Option Nat
  _on_subscribe_failure : Option Nat
  deriving DecidableEq, Repr

/-- mqtt.rs 135-145: a fresh `Inner` retains no completion handlers. -/
def initialHandlers : InnerHandlers :=
  ⟨none, none, none, none⟩

/-- mqtt.rs 258-261: `Inner::connect` overwrites the stored connect handler
pair with the freshly created closures, before the transport call at 265. -/
def Inner.storeConnectHandlers (st : InnerHandlers) (sId fId : Nat) :
    InnerHandlers :=
  { st with _on_connect_success := some sId, _on_connect_failure := some fId }

/-- mqtt.rs 313-316: `Inner::subscribe` overwrites the stored subscribe
handler pair, before the transport call at 320. -/
def Inner.storeSubscribeHandlers (st : InnerHandlers) (sId fId : Nat) :
    InnerHandlers :=
  { st with _on_subscribe_success := some sId, _on_subscribe_failure := some fId }

/-- The connect completion closures (mqtt.rs 238-241) capture only the yew
callbacks, not `self`; the only writes to the retention fields in the whole
source are the assignments at 260-261 and 315-316. Hence the firing of a
connect completion leaves the stored handlers untouched. -/
def Inner.fireConnectCompletion (st : InnerHandlers) : InnerHandlers :=
  st

/-- Likewise (mqtt.rs 293-296), a subscribe completion firing leaves the
stored handlers untouched. -/
def Inner.fireSubscribeCompletion (st : InnerHandlers) : InnerHandlers :=
  st

/-- mqtt.rs 360-366: `impl Drop for Inner` — disconnect only if currently
connected; the disconnect result is discarded (`let _ =`). -/
def Inner.dropEvents (connected : Bool) (_discResult : Except JsVal Unit) :
    List Event :=
  if connected then [Event.transportDisconnect] else []

/-- mqtt.rs 327-335: `Inner::publish` — forward to the transport with the
mapped QoS and render any native error through `str_err`. -/
def Inner.publish (tpublish : String → String → Int → Bool → Except JsVal Unit)
    (topic payload : String) (q : QoS) (retain : Bool) :
    List Event × Except String Unit :=
  ([Event.transportPublish topic payload (QoS.toI32 q) retain],
   mapErr str_err (tpublish topic payload (QoS.toI32 q) retain))

/-- mqtt.rs 426-431: the fields of `MqttPublisher` relevant to `send`. -/
structure MqttPublisher where
  topic : String
  qos : QoS
  deriving DecidableEq, Repr

/-- mqtt.rs 517-522: values assigned at the end of `MqttPublisher::new`. -/
def MqttPublisher.init : MqttPublisher :=
  { topic := "sensor", qos := QoS.QoS1 }

/-- mqtt.rs 526-534: `send` locks the shared session handle and forwards to
publish with the stored topic and QoS and `retained = false`, returning that
publish result unchanged (locking is the serialization of this very call and
is modelled by the sequential application). -/
def MqttPublisher.send (p : MqttPublisher)
    (tpublish : String → String → Int → Bool → Except JsVal Unit)
    (payload : String) : List Event × Except String Unit :=
  Inner.publish tpublish p.topic payload p.qos false

/-- mqtt.rs 536-541: `impl Drop for MqttPublisher` — an unconditional
best-effort disconnect straight on the inner client (its result discarded),
then the `Stopped` notification. The connection state is never consulted. -/
def MqttPublisher.dropEvents (_discResult : Except JsVal Unit) : List Event :=
  [Event.transportDisconnect, Event.stateNotify "Stopped"]

/-- Outcome of the single subscribe completion. -/
inductive SubOutcome
  | ok
  | err (reason : String)
  deriving DecidableEq, Repr

/-- Outcome of the single connect completion; on success the subscribe is
issued and its completion also eventually fires. -/
inductive ConnectOutcome
  | ok (sub : SubOutcome)
  | err (reason : String)
  deriving DecidableEq, Repr

/-- Event trace of `MqttPublisher::new` (mqtt.rs 440-523) on the happy setup
path, followed by the single firing of the connect completion and, when the
subscribe was issued, the single firing of the subscribe completion.
Order, per the source:
line 441 emits `Connecting`; the `on_success` argument block at 486-506 is
evaluated while the arguments of the `connect` call at 477 are built, and its
statement at line 488 emits `Subscribing` right then; `Inner::connect` then
issues the transport connect (line 265). A failure completion runs the
closure at 507-512; a success completion runs the closure built at 489-505,
which issues the subscribe of `command/inbox/#` at QoS0 (line 490-493, then
line 320), whose own completions emit `Running` (line 496) or the
subscribe-failure text (lines 498-503). -/
def MqttPublisher.runTrace (out : ConnectOutcome) : List Event :=
  [Event.stateNotify "Connecting",
   Event.stateNotify "Subscribing",
   Event.transportConnect]
  ++ match out with
     | .err r => [Event.stateNotify ("Failed to connect: " ++ r)]
     | .ok sub =>
       [Event.transportSubscribe "command/inbox/#" 0]
       ++ match sub with
          | .ok => [Event.stateNotify "Running"]
          | .err r => [Event.stateNotify ("Failed to subscribe: " ++ r)]

/-- Claim C1 (evaluation at the failing input): when the connect completion
fires with failure reason "bad credentials", the state-notification sequence
produced since construction is `Connecting`, `Subscribing`,
`Failed to connect: bad credentials` — the eager emit at mqtt.rs 488 puts
`Subscribing` in the sequence even though the connection failed, contrary to
the claim — while, as the claim also states, no subscribe call is ever issued
to the transport. -/
theorem c1_connect_failure_trace :
    stateTexts (MqttPublisher.runTrace (ConnectOutcome.err "bad credentials"))
      = ["Connecting", "Subscribing", "Failed to connect: bad credentials"]
    ∧ (MqttPublisher.runTrace (ConnectOutcome.err "bad credentials")).countP
        Event.isSubscribeCall = 0 := by
  constructor
  · rfl
  · rfl

/-- Claim C2 counterexample: with `is_connected()` false at teardown, the
claim predicts no disconnect call, but the orchestrator teardown
(`MqttPublisher::drop`, mqtt.rs 538, which never consults the connection
state) followed by the inner teardown still issues one disconnect call. -/
theorem c2_counterexample :
    (MqttPublisher.dropEvents (Except.ok ())
      ++ Inner.dropEvents false (Except.ok ())).countP Event.isDisconnectCall
      ≠ 0 := by
  decide

/-- Claim C2 amended: the inner session manager teardown (`Drop for Inner`)
issues exactly one disconnect when connected and none when not, but the
orchestrator teardown (`Drop for MqttPublisher`) always issues exactly one
unconditional disconnect and then emits `Stopped`, regardless of the
connection state; in both, the disconnect result is discarded, so teardown is
insensitive to a disconnect failure. -/
theorem c2_teardown_disconnects (r r2 : Except JsVal Unit) (c : Bool) :
    (Inner.dropEvents true r).countP Event.isDisconnectCall = 1
    ∧ (Inner.dropEvents false r).countP Event.isDisconnectCall = 0
    ∧ (MqttPublisher.dropEvents r).countP Event.isDisconnectCall = 1
    ∧ Inner.dropEvents c r = Inner.dropEvents c r2
    ∧ MqttPublisher.dropEvents r = MqttPublisher.dropEvents r2
    ∧ (MqttPublisher.dropEvents r).getLast? = some (Event.stateNotify "Stopped") := by
  refine ⟨rfl, rfl, rfl, rfl, rfl, rfl⟩

/-- Witness for `c2_teardown_disconnects` at concrete inputs. -/
theorem c2_teardown_disconnects_witness :
    (Inner.dropEvents true (Except.ok ())).countP Event.isDisconnectCall = 1
    ∧ (Inner.dropEvents false (Except.ok ())).countP Event.isDisconnectCall = 0
    ∧ (MqttPublisher.dropEvents (Except.ok ())).countP Event.isDisconnectCall = 1
    ∧ Inner.dropEvents true (Except.ok ())
        = Inner.dropEvents true (Except.error ⟨none, none⟩)
    ∧ MqttPublisher.dropEvents (Except.ok ())
        = MqttPublisher.dropEvents (Except.error ⟨none, none⟩)
    ∧ (MqttPublisher.dropEvents (Except.ok ())).getLast?
        = some (Event.stateNotify "Stopped") :=
  c2_teardown_disconnects (Except.ok ()) (Except.error ⟨none, none⟩) true

/-- Claim C3 counterexample: after a connect request stores its handler pair
and the completion fires, the success handler is still retained (not released
on firing, contrary to the claim). -/
theorem c3_counterexample :
    (Inner.fireConnectCompletion
      (Inner.storeConnectHandlers initialHandlers 0 1))._on_connect_success
      ≠ none := by
  decide

/-- Claim C3 amended: the handler pair for a connect or subscribe request is
stored (replacing any previous pair of the same kind) before the transport
call is issued and remains retained after the completion fires; it is
released only when a later request of the same kind overwrites it or when the
`Inner` value itself is destroyed. -/
theorem c3_handler_retention (st : InnerHandlers) (a b a2 b2 : Nat) :
    (Inner.storeConnectHandlers st a b)._on_connect_success = some a
    ∧ (Inner.storeConnectHandlers st a b)._on_connect_failure = some b
    ∧ Inner.fireConnectCompletion (Inner.storeConnectHandlers st a b)
        = Inner.storeConnectHandlers st a b
    ∧ (Inner.storeConnectHandlers
        (Inner.storeConnectHandlers st a b) a2 b2)._on_connect_success = some a2
    ∧ (Inner.storeSubscribeHandlers st a b)._on_subscribe_success = some a
    ∧ (Inner.storeSubscribeHandlers st a b)._on_subscribe_failure = some b
    ∧ Inner.fireSubscribeCompletion (Inner.storeSubscribeHandlers st a b)
        = Inner.storeSubscribeHandlers st a b
    ∧ (Inner.storeSubscribeHandlers
        (Inner.storeSubscribeHandlers st a b) a2 b2)._on_subscribe_success
        = some a2 := by
  refine ⟨rfl, rfl, rfl, rfl, rfl, rfl, rfl, rfl⟩

/-- Witness for `c3_handler_retention` at concrete inputs. -/
theorem c3_handler_retention_witness :
    (Inner.storeConnectHandlers initialHandlers 0 1)._on_connect_success = some 0
    ∧ (Inner.storeConnectHandlers initialHandlers 0 1)._on_connect_failure = some 1
    ∧ Inner.fireConnectCompletion (Inner.storeConnectHandlers initialHandlers 0 1)
        = Inner.storeConnectHandlers initialHandlers 0 1
    ∧ (Inner.storeConnectHandlers
        (Inner.storeConnectHandlers initialHandlers 0 1) 2 3)._on_connect_success
        = some 2
    ∧ (Inner.storeSubscribeHandlers initialHandlers 0 1)._on_subscribe_success
        = some 0
    ∧ (Inner.storeSubscribeHandlers initialHandlers 0 1)._on_subscribe_failure
        = some 1
    ∧ Inner.fireSubscribeCompletion
        (Inner.storeSubscribeHandlers initialHandlers 0 1)
        = Inner.storeSubscribeHandlers initialHandlers 0 1
    ∧ (Inner.storeSubscribeHandlers
        (Inner.storeSubscribeHandlers initialHandlers 0 1) 2 3)._on_subscribe_success
        = some 2 :=
  c3_handler_retention initialHandlers 0 1 2 3

/-- Claim C4 counterexample: when the native option object for a connect
cannot be constructed, `Inner::connect` does not return a SetupError to its
caller — it panics (`unwrap` at mqtt.rs 236). -/
theorem c4_counterexample :
    CallOutcome.isSetupError (Inner.connect ⟨true, false, false⟩).2 = false
    ∧ (Inner.connect ⟨true, false, false⟩).2 = CallOutcome.panicked := by
  exact ⟨rfl, rfl⟩

/-- Claim C4 amended: for subscribe, failure to construct the native option
object or to attach either completion handler yields a SetupError returned
synchronously with no transport call made; for connect, handler-attachment
failures likewise yield a synchronous SetupError with no transport call, but
failure to construct the option object panics (unwrap) instead of returning
an error; in all other cases exactly the one transport call is issued and the
call returns success. -/
theorem c4_setup_errors (env : SetupEnv) (f : String) (q : QoS) :
    CallOutcome.isPanicked (Inner.connect env).2 = env.optionsBuildFails
    ∧ CallOutcome.isSetupError (Inner.connect env).2
        = (!env.optionsBuildFails && (env.setOnFailureFails || env.setOnSuccessFails))
    ∧ CallOutcome.isPanicked (Inner.subscribe env f q).2 = false
    ∧ CallOutcome.isSetupError (Inner.subscribe env f q).2
        = (env.optionsBuildFails || env.setOnFailureFails || env.setOnSuccessFails)
    ∧ ((Inner.connect env).2 = CallOutcome.ok
        ↔ (Inner.connect env).1 = [Event.transportConnect])
    ∧ ((Inner.connect env).2 = CallOutcome.ok ∨ (Inner.connect env).1 = [])
    ∧ ((Inner.subscribe env f q).2 = CallOutcome.ok
        ↔ (Inner.subscribe env f q).1
            = [Event.transportSubscribe f (QoS.toI32 q)])
    ∧ ((Inner.subscribe env f q).2 = CallOutcome.ok
        ∨ (Inner.subscribe env f q).1 = []) := by
  obtain ⟨o, fl, s⟩ := env
  cases o <;> cases fl <;> cases s <;>
    simp [Inner.connect, Inner.subscribe, CallOutcome.isPanicked,
      CallOutcome.isSetupError]

/-- Witness for `c4_setup_errors` at concrete inputs. -/
theorem c4_setup_errors_witness :
    CallOutcome.isPanicked (Inner.connect ⟨false, false, false⟩).2 = false
    ∧ CallOutcome.isSetupError (Inner.connect ⟨false, false, false⟩).2
        = (!false && (false || false))
    ∧ CallOutcome.isPanicked
        (Inner.subscribe ⟨false, false, false⟩ "command/inbox/#" QoS.QoS0).2 = false
    ∧ CallOutcome.isSetupError
        (Inner.subscribe ⟨false, false, false⟩ "command/inbox/#" QoS.QoS0).2
        = (false || false || false)
    ∧ ((Inner.connect ⟨false, false, false⟩).2 = CallOutcome.ok
        ↔ (Inner.connect ⟨false, false, false⟩).1 = [Event.transportConnect])
    ∧ ((Inner.connect ⟨false, false, false⟩).2 = CallOutcome.ok
        ∨ (Inner.connect ⟨false, false, false⟩).1 = [])
    ∧ ((Inner.subscribe ⟨false, false, false⟩ "command/inbox/#" QoS.QoS0).2
          = CallOutcome.ok
        ↔ (Inner.subscribe ⟨false, false, false⟩ "command/inbox/#" QoS.QoS0).1
            = [Event.transportSubscribe "command/inbox/#" (QoS.toI32 QoS.QoS0)])
    ∧ ((Inner.subscribe ⟨false, false, false⟩ "command/inbox/#" QoS.QoS0).2
          = CallOutcome.ok
        ∨ (Inner.subscribe ⟨false, false, false⟩ "command/inbox/#" QoS.QoS0).1
            = []) :=
  c4_setup_errors ⟨false, false, false⟩ "command/inbox/#" QoS.QoS0

/-- Claim C5: for a message whose topic carries the exact stem
`command/inbox//`, a payload the strict decode accepts is forwarded exactly
as decoded with the loose tier never invoked; on strict failure a successful
generic JSON parse leads to the loose mapping, of whose result only the
second (command) component is forwarded; and when the strict decode fails and
the generic parse also fails, nothing is forwarded. -/
theorem c5_decode_tiers {Cmd J M : Type} (strict : List Nat → Option Cmd)
    (parseJson : List Nat → Option J) (json2command : J → Option (M × Cmd))
    (topic : String) (payload : List Nat)
    (hpre : (stripPfx commandInbox.data topic.data).isSome = true) :
    (∀ c, strict payload = some c →
        msgToCommand strict parseJson json2command ⟨topic, payload⟩
          = ⟨some c, true, false⟩
        ∧ commandEmissions strict parseJson json2command ⟨topic, payload⟩ = [c])
    ∧ (strict payload = none → ∀ j, parseJson payload = some j →
        (msgToCommand strict parseJson json2command ⟨topic, payload⟩).forwarded
          = (json2command j).map Prod.snd
        ∧ (msgToCommand strict parseJson json2command
            ⟨topic, payload⟩).looseTried = true)
    ∧ (strict payload = none → parseJson payload = none →
        commandEmissions strict parseJson json2command ⟨topic, payload⟩ = []
        ∧ (msgToCommand strict parseJson json2command
            ⟨topic, payload⟩).forwarded = none) := by
  obtain ⟨rest, ht⟩ := Option.isSome_iff_exists.mp hpre
  refine ⟨?_, ?_, ?_⟩
  · intro c hc
    constructor
    · simp [msgToCommand, ht, hc]
    · simp [commandEmissions, filter_reform, msgToCommand, ht, hc]
  · intro hs j hj
    constructor <;> simp [msgToCommand, ht, hs, hj]
  · intro hs hj
    constructor
    · simp [commandEmissions, filter_reform, msgToCommand, ht, hs, hj]
    · simp [msgToCommand, ht, hs, hj]

/-- Witness for `c5_decode_tiers`: a canonical-schema payload on a matching
topic is forwarded via the strict tier with the loose tier unused. -/
theorem c5_decode_tiers_witness :
    msgToCommand (fun _ => some (7 : Nat)) (fun _ => (none : Option Nat))
      (fun _ => (none : Option (Nat × Nat))) ⟨"command/inbox//abc", []⟩
      = ⟨some 7, true, false⟩
    ∧ commandEmissions (fun _ => some (7 : Nat)) (fun _ => (none : Option Nat))
      (fun _ => (none : Option (Nat × Nat))) ⟨"command/inbox//abc", []⟩
      = [7] :=
  (c5_decode_tiers (fun _ => some (7 : Nat)) (fun _ => (none : Option Nat))
    (fun _ => (none : Option (Nat × Nat))) "command/inbox//abc" []
    (by decide)).1 7 rfl

/-- Claim C6: a delivered message whose topic does not start with
`command/inbox//` triggers neither decode tier and the command observer is
never invoked. -/
theorem c6_non_matching_topic {Cmd J M : Type} (strict : List Nat → Option Cmd)
    (parseJson : List Nat → Option J) (json2command : J → Option (M × Cmd))
    (topic : String) (payload : List Nat)
    (h : stripPfx commandInbox.data topic.data = none) :
    msgToCommand strict parseJson json2command ⟨topic, payload⟩
      = ⟨none, false, false⟩
    ∧ commandEmissions strict parseJson json2command ⟨topic, payload⟩ = [] := by
  constructor
  · simp [msgToCommand, h]
  · simp [commandEmissions, filter_reform, msgToCommand, h]

/-- Witness for `c6_non_matching_topic` on topic `telemetry/data`. -/
theorem c6_non_matching_topic_witness :
    msgToCommand (fun _ => some (7 : Nat)) (fun _ => (none : Option Nat))
      (fun _ => (none : Option (Nat × Nat))) ⟨"telemetry/data", [1, 2]⟩
      = ⟨none, false, false⟩
    ∧ commandEmissions (fun _ => some (7 : Nat)) (fun _ => (none : Option Nat))
      (fun _ => (none : Option (Nat × Nat))) ⟨"telemetry/data", [1, 2]⟩
      = [] :=
  c6_non_matching_topic (fun _ => some (7 : Nat)) (fun _ => (none : Option Nat))
    (fun _ => (none : Option (Nat × Nat))) "telemetry/data" [1, 2] (by decide)

/-- Claim C7: `convert_error` is total over the three shapes of a native
error — a plain string is returned as-is, otherwise structured data renders
as its JSON text, otherwise the literal fallback string is produced. -/
theorem c7_convert_error_total (s r : String) (j : Option String) :
    convert_error ⟨some s, j⟩ = s
    ∧ convert_error ⟨none, some r⟩ = r
    ∧ convert_error ⟨none, none⟩ = "<unknown>" :=
  ⟨rfl, rfl, rfl⟩

/-- Witness for `c7_convert_error_total` at concrete inputs. -/
theorem c7_convert_error_total_witness :
    convert_error ⟨some "bad credentials", none⟩ = "bad credentials"
    ∧ convert_error ⟨none, some "12"⟩ = "12"
    ∧ convert_error ⟨none, none⟩ = "<unknown>" :=
  c7_convert_error_total "bad credentials" "12" none

/-- Claim C8: the QoS-to-native-integer mapping sends QoS0, QoS1, QoS2 to
0, 1, 2 respectively, never produces any other integer, and is injective —
a total bijection onto 0, 1, 2. -/
theorem c8_qos_bijection :
    QoS.toI32 QoS.QoS0 = 0 ∧ QoS.toI32 QoS.QoS1 = 1 ∧ QoS.toI32 QoS.QoS2 = 2
    ∧ (∀ q : QoS, QoS.toI32 q ∈ ([0, 1, 2] : List Int))
    ∧ [QoS.toI32 QoS.QoS0, QoS.toI32 QoS.QoS1, QoS.toI32 QoS.QoS2].Nodup := by
  refine ⟨rfl, rfl, rfl, ?_, ?_⟩
  · intro q
    cases q <;> simp [QoS.toI32]
  · decide

/-- Witness for `c8_qos_bijection` at a concrete QoS level. -/
theorem c8_qos_bijection_witness :
    QoS.toI32 QoS.QoS1 ∈ ([0, 1, 2] : List Int) :=
  c8_qos_bijection.2.2.2.1 QoS.QoS1

/-- Claim C9: `send(payload)` publishes exactly once with the fixed topic
`sensor`, QoS level 1 and retained false, forwarding to the session publish,
and returns that publish result (success preserved, native errors rendered
via `str_err`). -/
theorem c9_send_contract
    (tpublish : String → String → Int → Bool → Except JsVal Unit)
    (payload : String) :
    (MqttPublisher.send MqttPublisher.init tpublish payload).1
      = [Event.transportPublish "sensor" payload 1 false]
    ∧ (MqttPublisher.send MqttPublisher.init tpublish payload).2
        = mapErr str_err (tpublish "sensor" payload 1 false)
    ∧ ((MqttPublisher.send MqttPublisher.init tpublish payload).2 = Except.ok ()
        ↔ tpublish "sensor" payload 1 false = Except.ok ()) := by
  refine ⟨rfl, rfl, ?_⟩
  cases h : tpublish "sensor" payload 1 false with
  | ok v =>
    cases v
    simp [MqttPublisher.send, Inner.publish, mapErr, MqttPublisher.init,
      QoS.toI32, h]
  | error e =>
    simp [MqttPublisher.send, Inner.publish, mapErr, MqttPublisher.init,
      QoS.toI32, h]

/-- Witness for `c9_send_contract` at a concrete transport and payload. -/
theorem c9_send_contract_witness :
    (MqttPublisher.send MqttPublisher.init (fun _ _ _ _ => Except.ok ())
      "hello").1 = [Event.transportPublish "sensor" "hello" 1 false]
    ∧ (MqttPublisher.send MqttPublisher.init (fun _ _ _ _ => Except.ok ())
        "hello").2 = mapErr str_err (Except.ok ())
    ∧ ((MqttPublisher.send MqttPublisher.init (fun _ _ _ _ => Except.ok ())
        "hello").2 = Except.ok () ↔ (Except.ok () : Except JsVal Unit)
          = Except.ok ()) :=
  c9_send_contract (fun _ _ _ _ => Except.ok ()) "hello"

/-- Claim C10: a delivered value interpretable as a message invokes the
application callback exactly once with its topic and payload and logs no
warning; any other value invokes no callback and is dropped with one
warning. -/
theorem c10_message_arrived (t : String) (p : List Nat) :
    onMessageArrived (JsArrived.message t p) = ([⟨t, p⟩], [])
    ∧ onMessageArrived JsArrived.other
        = ([], ["Failed to parse incoming message: Failed to convert message"]) :=
  ⟨rfl, rfl⟩

/-- Witness for `c10_message_arrived` at a concrete topic and payload. -/
theorem c10_message_arrived_witness :
    onMessageArrived (JsArrived.message "command/inbox//abc" [123])
      = ([⟨"command/inbox//abc", [123]⟩], [])
    ∧ onMessageArrived JsArrived.other
        = ([], ["Failed to parse incoming message: Failed to convert message"]) :=
  c10_message_arrived "command/inbox//abc" [123]
